import Mathlib

/-!
Verification of the odbcnotebook server core: a shallow embedding of
`odbcnotebook/odbc.py` (PagingContext and the RPC session state machine)
and `odbcnotebook/jsonrpc.py` (the JSON-RPC 2.0 codec and dispatcher),
together with proofs of the specification's claims about them.

Modelling conventions:
- JSON values are the inductive `JVal`; JSON numbers are modelled as
  integers (every number appearing in the claims is an integer).
  A `JVal.obj` stands for a Python dict decoded by `json.loads`, so its
  keys are distinct and lookup (`pyGet`) is first-occurrence lookup.
- Database column values are `PyVal` with `pyStr` mirroring Python `str`.
- A driver cursor is the data the core reads from it: the result
  description (`None` for statements without a result set), the update
  count, and the remaining unfetched rows.
- Exceptions are values of `PyExc`; the dispatcher's `except TypeError` /
  `except Exception` branches match on them.  `traceback.format_tb` is
  abstracted to the empty frame list, so the `stacktrace` diagnostic is
  `str(exception) ++ "\n"`.
- The external driver (`pyodbc`) is a `Driver` record of the three entry
  points the core uses (execute, tables listing, columns listing), each
  free to fail with an arbitrary exception.
-/

/-- A decoded JSON value (Python object produced by `json.loads`). -/
inductive JVal where
  | null : JVal
  | bool : Bool → JVal
  | num : Int → JVal
  | str : String → JVal
  | arr : List JVal → JVal
  | obj : List (String × JVal) → JVal

/-- Python `x is None` on a decoded JSON value. -/
def JVal.isNull : JVal → Bool
  | .null => true
  | _ => false

/-- First-occurrence lookup in a decoded JSON object; models Python
`dict.get(k)` returning `None` (here `Option.none`) when the key is absent. -/
def pyGet (kvs : List (String × JVal)) (k : String) : Option JVal :=
  match kvs with
  | [] => none
  | (k2, v) :: rest => if k2 = k then some v else pyGet rest k

/-- A database column value, as handed to `str` by `PagingContext.page`. -/
inductive PyVal where
  | vNone : PyVal
  | vBool : Bool → PyVal
  | vInt : Int → PyVal
  | vStr : String → PyVal
deriving DecidableEq

/-- Python `str` on the modelled column values. -/
def pyStr : PyVal → String
  | .vNone => "None"
  | .vBool true => "True"
  | .vBool false => "False"
  | .vInt n => toString n
  | .vStr s => s

/-- A Python exception, tagged with the classes the dispatcher's
`except` clauses distinguish (`TypeError` versus everything else;
`ValueError` is kept separate because the state machine raises it). -/
inductive PyExc where
  | typeError : String → PyExc
  | valueError : String → PyExc
  | otherError : String → PyExc
deriving DecidableEq

/-- The message carried by an exception. -/
def PyExc.msg : PyExc → String
  | .typeError m => m
  | .valueError m => m
  | .otherError m => m

/-- A driver cursor as observed by the core: the result description
(`cursor.description`, `None` when the statement produced no result set,
already paired as (name, type.__name__)), the update count
(`cursor.rowcount`) and the rows not yet fetched by iteration. -/
structure Cursor where
  description : Option (List (String × String))
  rowcount : Int
  rows : List (List PyVal)
deriving DecidableEq

/-- `PagingContext`: wraps a cursor; `metadata_cache` is the list built in
`__init__` from `cursor.description`. -/
structure PagingContext where
  cursor : Cursor
  metadata_cache : List (String × String)
deriving DecidableEq

/-- `PagingContext.__init__`: iterates `cursor.description` to build
`metadata_cache`.  When the statement produced no result set the
description is Python `None` and the iteration raises `TypeError`. -/
def mkPagingContext (c : Cursor) : Except PyExc PagingContext :=
  match c.description with
  | none => .error (.typeError "NoneType object is not iterable")
  | some d => .ok { cursor := c, metadata_cache := d }

/-- `PagingContext.metadata`: returns the cached descriptors. -/
def PagingContext.metadata (ctx : PagingContext) : List (String × String) :=
  ctx.metadata_cache

/-- `PagingContext.count`: returns `cursor.rowcount`. -/
def PagingContext.count (ctx : PagingContext) : Int :=
  ctx.cursor.rowcount

/-- `named_row[column] = str(value)`: Python dict assignment on an
insertion-ordered association list (an existing key keeps its position
and takes the new value; a new key is appended). -/
def dictInsert (d : List (String × String)) (k v : String) : List (String × String) :=
  match d with
  | [] => [(k, v)]
  | (k2, v2) :: rest => if k2 = k then (k2, v) :: rest else (k2, v2) :: dictInsert rest k v

/-- The inner loop of `PagingContext.page`: builds `named_row` from
`zip(columns, row)`, stringifying each value. -/
def rowDict (cols : List String) (vals : List PyVal) : List (String × String) :=
  (List.zip cols vals).foldl (fun d p => dictInsert d p.1 (pyStr p.2)) []

/-- The `for row in self.cursor` loop of `PagingContext.page`: `count` is
`len(page)` so far; the loop breaks when `len(page) == max` after an
append.  Returns the page and the rows left on the cursor. -/
def pageGo (cols : List String) (max : Int) (count : Nat) :
    List (List PyVal) → List (List (String × String)) × List (List PyVal)
  | [] => ([], [])
  | r :: rs =>
    let named := rowDict cols r
    if ((count + 1 : Nat) : Int) = max then ([named], rs)
    else
      let rest := pageGo cols max (count + 1) rs
      (named :: rest.1, rest.2)

/-- `PagingContext.page(max)`: fetches up to a page of rows, advancing the
cursor. -/
def PagingContext.page (ctx : PagingContext) (max : Int) :
    List (List (String × String)) × PagingContext :=
  let res := pageGo (ctx.metadata_cache.map Prod.fst) max 0 ctx.cursor.rows
  (res.1, { ctx with cursor := { ctx.cursor with rows := res.2 } })

/-- The value stored in the session's `shutdown_fn` slot: unset (`None`),
the server's real callback, or a JSON value smuggled in through the
RPC-exposed `set_shutdown` attribute. -/
inductive ShutdownFn where
  | unset : ShutdownFn
  | pyCallable : ShutdownFn
  | jsonVal : JVal → ShutdownFn

/-- The `RPC` object's mutable state (the Session): the optional current
`PagingContext`, the `shutdown_fn` slot, and the observable effects on
the connection (closed) and the shutdown callback (invoked). -/
structure RPCState where
  page_context : Option PagingContext
  shutdown_fn : ShutdownFn
  conn_closed : Bool
  shutdown_called : Bool

/-- The session as constructed by `RPC.__init__` followed by the server's
`set_shutdown` call (the configuration under which requests are served). -/
def initState : RPCState :=
  { page_context := none, shutdown_fn := .pyCallable
    conn_closed := false, shutdown_called := false }

/-- One row of the driver's `cursor.tables()` listing, as unpacked by
`_table_like`: `(catalog, schema, table, kind, _)`. -/
structure TblRow where
  catalog : Option String
  schema : Option String
  table : String
  kind : String
deriving DecidableEq

/-- One row of the driver's `cursor.columns()` listing; the fields read
are `row[0]`, `row[1]`, `row[2]`, `row[3]` and `row[5]`. -/
structure ColRow where
  catalog : Option String
  schema : Option String
  table : String
  column : String
  datatype : String
deriving DecidableEq

/-- The external driver (pyodbc), reduced to the three entry points the
core calls; each may fail with an arbitrary driver exception.  `exec`
covers `connection.cursor()` followed by `cursor.execute(sql)`. -/
structure Driver where
  exec : JVal → Except PyExc Cursor
  tablesList : Except PyExc (List TblRow)
  columnsList : JVal → Option JVal → Option JVal → Except PyExc (List ColRow)

/-- A trivial driver used for concrete evaluations. -/
def noDriver : Driver :=
  { exec := fun _ => .error (.otherError "no connection")
    tablesList := .ok []
    columnsList := fun _ _ _ => .ok [] }

/-- Python truthiness of a decoded JSON value (`x or None` tests). -/
def pyFalsy : JVal → Bool
  | .null => true
  | .bool b => !b
  | .num n => n = 0
  | .str s => s = ""
  | .arr l => l.isEmpty
  | .obj l => l.isEmpty

/-- Python `max <= 0` on a decoded JSON value: defined for numbers and
booleans (`bool` is an `int`), a `TypeError` otherwise. -/
def pyLeZero : JVal → Except PyExc Bool
  | .num n => .ok (n ≤ 0)
  | .bool b => .ok (b = false)
  | _ => .error (.typeError "not supported between instances of str and int")

/-- The integer value of a JSON number or boolean (Python `bool` is an
`int`: `True == 1`, `False == 0`). -/
def pyInt : JVal → Int
  | .num n => n
  | .bool true => 1
  | _ => 0

/-- Python `target_kind.lower()`: an `AttributeError` on non-strings. -/
def pyLower : JVal → Except PyExc String
  | .str s => .ok s.toLower
  | _ => .error (.otherError "object has no attribute lower")

/-- One page row rendered back to JSON for the RPC response. -/
def rowToJVal (row : List (String × String)) : JVal :=
  .obj (row.map fun p => (p.1, .str p.2))

/-- `RPC.execute(sql)`: rejects when a query is active, otherwise runs the
statement on a fresh cursor and installs a new `PagingContext`. -/
def RPC.execute (drv : Driver) (st : RPCState) (sql : JVal) :
    Except PyExc JVal × RPCState :=
  match st.page_context with
  | some _ => (.error (.valueError "Cannot have active query when calling execute()"), st)
  | none =>
    match drv.exec sql with
    | .error e => (.error e, st)
    | .ok c =>
      match mkPagingContext c with
      | .error e => (.error e, st)
      | .ok ctx => (.ok (.bool true), { st with page_context := some ctx })

/-- `RPC.metadata()`: rejects without an active query, otherwise renders
the cached descriptors as a list of column/datatype objects. -/
def RPC.metadata (st : RPCState) : Except PyExc JVal × RPCState :=
  match st.page_context with
  | none => (.error (.valueError "Must have active query before calling metadata()"), st)
  | some ctx =>
    (.ok (.arr (ctx.metadata.map fun cd =>
      .obj [("column", .str cd.1), ("datatype", .str cd.2)])), st)

/-- `RPC.count()`: rejects without an active query (with the message the
source copied from `metadata`), otherwise returns the update count. -/
def RPC.count (st : RPCState) : Except PyExc JVal × RPCState :=
  match st.page_context with
  | none => (.error (.valueError "Must have active query before calling metadata()"), st)
  | some ctx => (.ok (.num ctx.count), st)

/-- `RPC.page(max)`: rejects without an active query; then evaluates
`max <= 0` (a `TypeError` on non-numbers) and rejects non-positive sizes;
otherwise pages the context. -/
def RPC.page (st : RPCState) (max : JVal) : Except PyExc JVal × RPCState :=
  match st.page_context with
  | none => (.error (.valueError "Must have active query before calling page()"), st)
  | some ctx =>
    match pyLeZero max with
    | .error e => (.error e, st)
    | .ok true => (.error (.valueError "Page size must be a positive integer"), st)
    | .ok false =>
      let res := ctx.page (pyInt max)
      (.ok (.arr (res.1.map rowToJVal)), { st with page_context := some res.2 })

/-- `RPC.finish()`: rejects without an active query, otherwise closes the
cursor and drops the context. -/
def RPC.finish (st : RPCState) : Except PyExc JVal × RPCState :=
  match st.page_context with
  | none => (.error (.valueError "Must have active query before calling finish()"), st)
  | some _ => (.ok (.bool true), { st with page_context := none })

/-- `connection.close()`: closing an already-closed connection raises. -/
def connClose (st : RPCState) : Except PyExc RPCState :=
  if st.conn_closed then .error (.otherError "Attempt to use a closed connection.")
  else .ok { st with conn_closed := true }

/-- `RPC.quit()`: rejects while a query is active, otherwise closes the
connection and then invokes `shutdown_fn` (a `TypeError` if the slot does
not hold a callable — note the connection is closed regardless). -/
def RPC.quit (st : RPCState) : Except PyExc JVal × RPCState :=
  match st.page_context with
  | some _ => (.error (.valueError "Cannot have active query when calling quit()"), st)
  | none =>
    match connClose st with
    | .error e => (.error e, st)
    | .ok st1 =>
      match st1.shutdown_fn with
      | .pyCallable => (.ok (.bool true), { st1 with shutdown_called := true })
      | _ => (.error (.typeError "object is not callable"), st1)

/-- The filtering loop of `RPC._table_like`: `target_kind.lower()` is
evaluated inside the loop, so a non-string kind only raises once there is
a row to compare. -/
def tableLikeLoop (target : JVal) : List TblRow → Except PyExc (List JVal)
  | [] => .ok []
  | r :: rs =>
    match pyLower target with
    | .error e => .error e
    | .ok t =>
      match tableLikeLoop target rs with
      | .error e => .error e
      | .ok acc =>
        if r.kind.toLower = t then
          .ok (.obj [("catalog", .str (r.catalog.getD "")),
                     ("schema", .str (r.schema.getD "")),
                     ("table", .str r.table)] :: acc)
        else .ok acc

/-- `RPC._table_like(target_kind)`: lists the driver's tables/views and
filters by the case-folded kind tag. -/
def RPC.table_like (drv : Driver) (st : RPCState) (kind : JVal) :
    Except PyExc JVal × RPCState :=
  match drv.tablesList with
  | .error e => (.error e, st)
  | .ok rows =>
    match tableLikeLoop kind rows with
    | .error e => (.error e, st)
    | .ok objs => (.ok (.arr objs), st)

/-- `RPC.tables()`. -/
def RPC.tables (drv : Driver) (st : RPCState) : Except PyExc JVal × RPCState :=
  RPC.table_like drv st (.str "table")

/-- `RPC.views()`. -/
def RPC.views (drv : Driver) (st : RPCState) : Except PyExc JVal × RPCState :=
  RPC.table_like drv st (.str "view")

/-- One row of the `columns` response. -/
def colRowToJVal (r : ColRow) : JVal :=
  .obj [("catalog", .str (r.catalog.getD "")),
        ("schema", .str (r.schema.getD "")),
        ("table", .str r.table),
        ("column", .str r.column),
        ("datatype", .str r.datatype)]

/-- `RPC.columns(catalog, schema, table)`: falsy catalog/schema become
absent filters (`catalog or None`), then the driver listing is rendered. -/
def RPC.columns (drv : Driver) (st : RPCState) (c s t : JVal) :
    Except PyExc JVal × RPCState :=
  let c2 := if pyFalsy c then none else some c
  let s2 := if pyFalsy s then none else some s
  match drv.columnsList t c2 s2 with
  | .error e => (.error e, st)
  | .ok rows => (.ok (.arr (rows.map colRowToJVal)), st)

/-- The attributes the `RPC` object itself defines: the class's own
methods and the instance fields set in `__init__`.  The object also
inherits attributes from `object` — all of dunder form (`__init__`,
`__str__`, `__class__`, ...) and with an interpreter-version-dependent
exact set — which are outside this inductive; theorems about the
absent case of attribute lookup therefore exclude dunder-form names
(`isDunderName`). -/
inductive RpcAttr where
  | tables | views | columns | execute | metadata | count | page | finish | quit
  | set_shutdown | table_like
  | connection | page_context | shutdown_fn
deriving DecidableEq

/-- Whether a list of characters starts with two underscores. -/
def dunderEdge : List Char → Bool
  | '_' :: '_' :: _ => true
  | _ => false

/-- Whether a name has Python dunder form (leading and trailing double
underscore, `__name__`): the attributes the RPC object inherits from
`object` all have this form, so for any name outside it, `getattr`
succeeding is decided entirely by the class's own attributes. -/
def isDunderName (m : String) : Bool :=
  dunderEdge m.data && dunderEdge m.data.reverse

/-- `getattr(rpc, method)` restricted to the attributes the class itself
defines: which names resolve, and to what.  A dunder-form name may
additionally resolve to an attribute inherited from `object`
(interpreter-version-dependent), which this definition does not cover;
its absent case is therefore only meaningful for non-dunder names. -/
def resolveAttr (m : String) : Option RpcAttr :=
  if m = "tables" then some .tables
  else if m = "views" then some .views
  else if m = "columns" then some .columns
  else if m = "execute" then some .execute
  else if m = "metadata" then some .metadata
  else if m = "count" then some .count
  else if m = "page" then some .page
  else if m = "finish" then some .finish
  else if m = "quit" then some .quit
  else if m = "set_shutdown" then some .set_shutdown
  else if m = "_table_like" then some .table_like
  else if m = "connection" then some .connection
  else if m = "page_context" then some .page_context
  else if m = "shutdown_fn" then some .shutdown_fn
  else none

/-- The check `request.get('jsonrpc', None) != '2.0'` (negated). -/
def jsonrpcTagOk (kvs : List (String × JVal)) : Bool :=
  match pyGet kvs "jsonrpc" with
  | some (.str s) => s = "2.0"
  | _ => false

/-- The check `id is None or isinstance(id, (str, int, float))` — a JSON
boolean passes it because Python `bool` is a subclass of `int`. -/
def idMemberOk (kvs : List (String × JVal)) : Bool :=
  match (pyGet kvs "id").getD .null with
  | .null => true
  | .str _ => true
  | .num _ => true
  | .bool _ => true
  | _ => false

/-- The check `isinstance(method, str)`. -/
def methodMemberOk (kvs : List (String × JVal)) : Bool :=
  match pyGet kvs "method" with
  | some (.str _) => true
  | _ => false

/-- The check `isinstance(params, (dict, list))` with default `[]`. -/
def paramsMemberOk (kvs : List (String × JVal)) : Bool :=
  match pyGet kvs "params" with
  | none => true
  | some (.arr _) => true
  | some (.obj _) => true
  | some _ => false

/-- `_validate_rpc_request`: returns the message of the first failing
check, or `none` when the envelope is valid. -/
def validate_rpc_request (kvs : List (String × JVal)) : Option String :=
  if !jsonrpcTagOk kvs then some "Invalid jsonrpc: must be \"2.0\""
  else if !idMemberOk kvs then some "Invalid id: must be null, string or number"
  else if !methodMemberOk kvs then some "Invalid method: must be string"
  else if !paramsMemberOk kvs then some "Invalid params: must be array or object"
  else none

/-- `request.get('id', None)`: the id as a Python value (absent and JSON
null both become `None`, modelled as `.null`). -/
def pyId (kvs : List (String × JVal)) : JVal :=
  (pyGet kvs "id").getD .null

/-- The validated `method` string. -/
def methodOf (kvs : List (String × JVal)) : String :=
  match pyGet kvs "method" with
  | some (.str s) => s
  | _ => ""

/-- The shape of `params` as seen by `_process_request`
(`request.get('params', None)`). -/
inductive Params where
  | absent : Params
  | pos : List JVal → Params
  | kw : List (String × JVal) → Params

/-- The `params` member of a validated envelope. -/
def paramsOf (kvs : List (String × JVal)) : Params :=
  match pyGet kvs "params" with
  | none => .absent
  | some (.arr l) => .pos l
  | some (.obj o) => .kw o
  | some _ => .absent

/-- Binding call arguments against a Python signature of
positional-or-keyword parameters: no params invokes with no arguments, a
list is splatted positionally, a dict is splatted by keyword; any
count/keyword mismatch is a `TypeError` (`none`). -/
def bindArgs (names : List String) (ps : Params) : Option (List JVal) :=
  match ps with
  | .absent => if names.isEmpty then some [] else none
  | .pos l => if l.length = names.length then some l else none
  | .kw o =>
    if names.length = o.length && names.all (fun n => (pyGet o n).isSome)
    then some (names.map fun n => (pyGet o n).getD .null) else none

/-- Invoking a resolved attribute with the request's params: the class's
methods check their signatures (a mismatch raises `TypeError` before the
body runs); calling a non-callable field also raises `TypeError`;
`shutdown_fn` is callable only once the server has installed the real
callback. -/
def callAttr (drv : Driver) (st : RPCState) (a : RpcAttr) (ps : Params) :
    Except PyExc JVal × RPCState :=
  match a with
  | .tables =>
    match bindArgs [] ps with
    | none => (.error (.typeError "tables() takes 1 positional argument"), st)
    | some _ => RPC.tables drv st
  | .views =>
    match bindArgs [] ps with
    | none => (.error (.typeError "views() takes 1 positional argument"), st)
    | some _ => RPC.views drv st
  | .columns =>
    match bindArgs ["catalog", "schema", "table"] ps with
    | some [c, s, t] => RPC.columns drv st c s t
    | _ => (.error (.typeError "columns() argument mismatch"), st)
  | .execute =>
    match bindArgs ["sql"] ps with
    | some [sql] => RPC.execute drv st sql
    | _ => (.error (.typeError "execute() argument mismatch"), st)
  | .metadata =>
    match bindArgs [] ps with
    | none => (.error (.typeError "metadata() takes 1 positional argument"), st)
    | some _ => RPC.metadata st
  | .count =>
    match bindArgs [] ps with
    | none => (.error (.typeError "count() takes 1 positional argument"), st)
    | some _ => RPC.count st
  | .page =>
    match bindArgs ["max"] ps with
    | some [m] => RPC.page st m
    | _ => (.error (.typeError "page() argument mismatch"), st)
  | .finish =>
    match bindArgs [] ps with
    | none => (.error (.typeError "finish() takes 1 positional argument"), st)
    | some _ => RPC.finish st
  | .quit =>
    match bindArgs [] ps with
    | none => (.error (.typeError "quit() takes 1 positional argument"), st)
    | some _ => RPC.quit st
  | .set_shutdown =>
    match bindArgs ["fn"] ps with
    | some [v] => (.ok .null, { st with shutdown_fn := .jsonVal v })
    | _ => (.error (.typeError "set_shutdown() argument mismatch"), st)
  | .table_like =>
    match bindArgs ["target_kind"] ps with
    | some [k] => RPC.table_like drv st k
    | _ => (.error (.typeError "_table_like() argument mismatch"), st)
  | .connection => (.error (.typeError "Connection object is not callable"), st)
  | .page_context => (.error (.typeError "object is not callable"), st)
  | .shutdown_fn =>
    match st.shutdown_fn with
    | .pyCallable =>
      match bindArgs [] ps with
      | none => (.error (.typeError "shutdown() takes 0 positional arguments"), st)
      | some _ => (.ok .null, { st with shutdown_called := true })
    | _ => (.error (.typeError "object is not callable"), st)

/-- `_build_rpc_error`: suppressed for a null id unless `keep_null_id`;
the `message` is the table entry for the code and the `data.stacktrace`
is `str(exception) + "\n" + ...` (the traceback frames are abstracted to
the empty list). -/
def build_rpc_error (id : JVal) (code : Int) (message : String) (excMsg : String)
    (keepNullId : Bool) : Option JVal :=
  if id.isNull && !keepNullId then none
  else some (.obj [("jsonrpc", .str "2.0"), ("id", id),
    ("error", .obj [("code", .num code), ("message", .str message),
      ("data", .obj [("stacktrace", .str (excMsg ++ "\n"))])])])

/-- `_build_rpc_result`: suppressed for a null id. -/
def build_rpc_result (id : JVal) (result : JVal) : Option JVal :=
  if id.isNull then none
  else some (.obj [("jsonrpc", .str "2.0"), ("id", id), ("result", result)])

/-- The outcome of `_process_request` on one entry: a possibly-suppressed
response plus the mutated session, or an unhandled exception (a non-dict
entry has no `.get`, and the surrounding code catches nothing there). -/
inductive PResult where
  | ok : Option JVal → RPCState → PResult
  | crash : RPCState → PResult

/-- `_process_request`: validate (an invalid envelope is reported with the
id forced to null), resolve the method by `getattr` (an `AttributeError`
is Method Not Found), invoke it (`TypeError` is Invalid Params, any other
exception is Internal Error), and build the response.  The resolution
uses `resolveAttr`, which covers the class's own attributes: on a
dunder-form method name the program may instead hit an attribute
inherited from `object`, so theorems about the Method Not Found branch
carry an `isDunderName ... = false` hypothesis. -/
def process_request (drv : Driver) (st : RPCState) (req : JVal) : PResult :=
  match req with
  | .obj kvs =>
    match validate_rpc_request kvs with
    | some msg => .ok (build_rpc_error .null (-32600) "Invalid Request" msg true) st
    | none =>
      let id := pyId kvs
      match resolveAttr (methodOf kvs) with
      | none =>
        .ok (build_rpc_error id (-32601) "Method not found"
          ("RPC object has no attribute " ++ methodOf kvs) false) st
      | some a =>
        let res := callAttr drv st a (paramsOf kvs)
        match res.1 with
        | .ok r => .ok (build_rpc_result id r) res.2
        | .error (.typeError m) =>
          .ok (build_rpc_error id (-32602) "Invalid params" m false) res.2
        | .error (.valueError m) =>
          .ok (build_rpc_error id (-32603) "Internal Error" m false) res.2
        | .error (.otherError m) =>
          .ok (build_rpc_error id (-32603) "Internal Error" m false) res.2
  | _ => .crash st

/-- What `do_POST` hands back to the transport after decoding. -/
inductive HttpOut where
  | body : JVal → HttpOut
  | noBody : HttpOut
  | crash : HttpOut

/-- The batch comprehension of `do_POST`: one `_process_request` outcome
per entry, in order, threading the session; an unhandled exception aborts
the whole comprehension. -/
def run_batch (drv : Driver) (st : RPCState) :
    List JVal → Option (List (Option JVal)) × RPCState
  | [] => (some [], st)
  | e :: rest =>
    match process_request drv st e with
    | .crash st2 => (none, st2)
    | .ok r st2 =>
      match run_batch drv st2 rest with
      | (none, st3) => (none, st3)
      | (some rs, st3) => (some (r :: rs), st3)

/-- The body-handling tail of `do_POST`, after JSON decoding (`.error`
is a failed `json.loads` carrying `str(err)`): a parse failure is a
single Parse Error with a null id; an array is processed as a batch and
the non-suppressed responses are sent (always a body, possibly `[]`); an
object is processed alone (no body when suppressed); any other decoded
value takes the else-branch, whose Invalid Request envelope is built
without `keep_null_id` and is therefore `None` — `_send_json(None)`
sends the JSON body `null`. -/
def handle_decoded (drv : Driver) (st : RPCState) (decoded : Except String JVal) :
    HttpOut × RPCState :=
  match decoded with
  | .error msg =>
    (.body ((build_rpc_error .null (-32700) "Parse error" msg true).getD .null), st)
  | .ok (.arr entries) =>
    match run_batch drv st entries with
    | (none, st2) => (.crash, st2)
    | (some rs, st2) => (.body (.arr (rs.filterMap id)), st2)
  | .ok (.obj kvs) =>
    match process_request drv st (.obj kvs) with
    | .crash st2 => (.crash, st2)
    | .ok (some r) st2 => (.body r, st2)
    | .ok none st2 => (.noBody, st2)
  | .ok _ =>
    (.body ((build_rpc_error .null (-32600) "Invalid Request" "" false).getD .null), st)

/-- Whether a Python call returned normally. -/
def excOk : Except PyExc JVal → Bool
  | .ok _ => true
  | .error _ => false

/-- Whether a decoded JSON value is an object (a Python dict). -/
def isObj : JVal → Bool
  | .obj _ => true
  | _ => false

/-- A batch entry that is an envelope with a non-null id
(a non-notification). -/
def isNonNotif : JVal → Bool
  | .obj kvs => !(pyId kvs).isNull
  | _ => false

/-- Field access on a response envelope. -/
def getField (v : JVal) (k : String) : Option JVal :=
  match v with
  | .obj kvs => pyGet kvs k
  | _ => none

/-- The `error.code` of a response envelope, when it is an error. -/
def getErrCode (v : JVal) : Option Int :=
  match getField v "error" with
  | some (.obj e) =>
    match pyGet e "code" with
    | some (.num c) => some c
    | _ => none
  | _ => none

/-- The `error.message` of a response envelope. -/
def getErrMessage (v : JVal) : Option String :=
  match getField v "error" with
  | some (.obj e) =>
    match pyGet e "message" with
    | some (.str s) => some s
    | _ => none
  | _ => none

/-- The `error.data.stacktrace` of a response envelope. -/
def getStacktrace (v : JVal) : Option String :=
  match getField v "error" with
  | some (.obj e) =>
    match pyGet e "data" with
    | some (.obj d) =>
      match pyGet d "stacktrace" with
      | some (.str s) => some s
      | _ => none
    | _ => none
  | _ => none

/-- One RPC-surface invocation: an attribute name (already resolved) and
the params shape it is called with. -/
def stepOp (drv : Driver) (st : RPCState) (o : RpcAttr × Params) :
    Except PyExc JVal × RPCState :=
  callAttr drv st o.1 o.2

/-- Running a sequence of RPC-surface invocations against the session. -/
def runOps (drv : Driver) (st : RPCState) : List (RpcAttr × Params) → RPCState
  | [] => st
  | o :: os => runOps drv (stepOp drv st o).2 os

/-- The specification's description of the session state: fold over the
trace, becoming active on an accepted `execute` and idle on an accepted
`finish`, all other calls leaving the phase unchanged. -/
def specActive (drv : Driver) (st : RPCState) :
    List (RpcAttr × Params) → Bool → Bool
  | [], b => b
  | o :: os, b =>
    let res := stepOp drv st o
    let b2 := match o.1 with
      | .execute => excOk res.1 || b
      | .finish => !excOk res.1 && b
      | _ => b
    specActive drv res.2 os b2

/-- Repeated paging at the `PagingContext` level: one `page` call per
requested size, threading the context. -/
def pageSeq (ctx : PagingContext) : List Int → List (List (List (String × String))) × PagingContext
  | [] => ([], ctx)
  | m :: ms =>
    let res := ctx.page m
    let rest := pageSeq res.2 ms
    (res.1 :: rest.1, rest.2)

/-- Repeated paging at the RPC level: one `RPC.page` call per requested
size (successful or not), threading the session. -/
def applyPages (st : RPCState) : List JVal → RPCState
  | [] => st
  | m :: ms => applyPages (RPC.page st m).2 ms

/-- The paging loop takes exactly `max - count` further rows (or all that
remain), stringified in order, and leaves the rest on the cursor. -/
theorem pageGo_spec (cols : List String) (max : Int) :
    ∀ (rows : List (List PyVal)) (count : Nat), (count : Int) < max →
      pageGo cols max count rows
        = ((rows.take (max - count).toNat).map (rowDict cols),
           rows.drop (max - count).toNat)
  | [], count, _ => by simp [pageGo]
  | r :: rs, count, h => by
    by_cases h1 : ((count + 1 : Nat) : Int) = max
    · have ht : (max - (count : Int)).toNat = 1 := by omega
      simp [pageGo, h1, ht]
    · have h2 : ((count + 1 : Nat) : Int) < max := by push_cast at h1 h ⊢; omega
      have ht : (max - (count : Int)).toNat = (max - ((count + 1 : Nat) : Int)).toNat + 1 := by
        push_cast; omega
      have ih := pageGo_spec cols max rs (count + 1) h2
      simp only [pageGo]
      rw [if_neg h1, ih, ht]
      simp [List.take_succ_cons, List.drop_succ_cons]

/-- `PagingContext.page` with a positive size is take/drop of the cursor's
remaining rows. -/
theorem page_spec (ctx : PagingContext) (max : Int) (h : 1 ≤ max) :
    ctx.page max
      = ((ctx.cursor.rows.take max.toNat).map (rowDict (ctx.metadata_cache.map Prod.fst)),
         { ctx with cursor := { ctx.cursor with rows := ctx.cursor.rows.drop max.toNat } }) := by
  have h0 : ((0 : Nat) : Int) < max := by omega
  simp [PagingContext.page, pageGo_spec _ _ _ _ h0]

/-- Assigning a fresh key into a Python dict appends it. -/
theorem dictInsert_notMem (d : List (String × String)) (k v : String)
    (h : k ∉ d.map Prod.fst) : dictInsert d k v = d ++ [(k, v)] := by
  induction d with
  | nil => rfl
  | cons p rest ih =>
    simp only [List.map_cons, List.mem_cons] at h
    push_neg at h
    have hne : p.1 ≠ k := Ne.symm h.1
    simp [dictInsert, hne, ih h.2]

/-- Building a dict from distinct keys appends each pair in order. -/
theorem foldl_dictInsert (ps : List (String × PyVal)) :
    ∀ d : List (String × String), (ps.map Prod.fst).Nodup →
      (∀ k ∈ ps.map Prod.fst, k ∉ d.map Prod.fst) →
      ps.foldl (fun d p => dictInsert d p.1 (pyStr p.2)) d
        = d ++ ps.map (fun p => (p.1, pyStr p.2)) := by
  induction ps with
  | nil => intro d _ _; simp
  | cons p rest ih =>
    intro d hnd hdisj
    simp only [List.map_cons, List.nodup_cons] at hnd
    have hp : p.1 ∉ d.map Prod.fst := hdisj p.1 (by simp)
    have hrest : ∀ k ∈ rest.map Prod.fst, k ∉ (d ++ [(p.1, pyStr p.2)]).map Prod.fst := by
      intro k hk
      have hk1 : k ∉ d.map Prod.fst := hdisj k (by simp [hk])
      have hk2 : k ≠ p.1 := fun hkp => hnd.1 (hkp ▸ hk)
      simp [hk1, hk2]
    simp only [List.foldl_cons, dictInsert_notMem d p.1 (pyStr p.2) hp,
      ih (d ++ [(p.1, pyStr p.2)]) hnd.2 hrest, List.append_assoc, List.map_cons,
      List.singleton_append]

/-- Zipping then stringifying the values componentwise. -/
theorem zip_map_pyStr : ∀ (cols : List String) (vals : List PyVal),
    (cols.zip vals).map (fun p => (p.1, pyStr p.2)) = cols.zip (vals.map pyStr)
  | [], _ => by simp
  | _ :: _, [] => by simp
  | c :: cs, v :: vs => by simp [zip_map_pyStr cs vs]

/-- With distinct column names and a row of matching width, the
`named_row` dict is exactly the name/stringified-value pairing in
descriptor order. -/
theorem rowDict_eq (cols : List String) (vals : List PyVal)
    (hnd : cols.Nodup) (hlen : vals.length = cols.length) :
    rowDict cols vals = cols.zip (vals.map pyStr) := by
  have hfst : (cols.zip vals).map Prod.fst = cols :=
    List.map_fst_zip cols vals (by omega)
  have := foldl_dictInsert (cols.zip vals) [] (by rw [hfst]; exact hnd) (by simp)
  rw [rowDict, this, List.nil_append, zip_map_pyStr]

/-- C2: for every `page(max)` call on a Paging Context with `max ≥ 1`
(and a well-formed driver result set: distinct column names, rows as wide
as the descriptor list), the returned sequence has at most `max` rows, is
empty exactly when the cursor was already exhausted, and each returned
row is the ordered mapping from the cached Column Descriptor names (in
descriptor order) to the stringified values of one source row. -/
theorem C2_page_shape (ctx : PagingContext) (max : Int)
    (hmax : 1 ≤ max)
    (hnd : (ctx.metadata_cache.map Prod.fst).Nodup)
    (hlen : ∀ r ∈ ctx.cursor.rows, r.length = ctx.metadata_cache.length) :
    ((ctx.page max).1.length : Int) ≤ max
    ∧ ((ctx.page max).1 = [] ↔ ctx.cursor.rows = [])
    ∧ ∀ row ∈ (ctx.page max).1,
        row.map Prod.fst = ctx.metadata_cache.map Prod.fst
        ∧ ∃ src ∈ ctx.cursor.rows,
            row = (ctx.metadata_cache.map Prod.fst).zip (src.map pyStr) := by
  rw [page_spec ctx max hmax]
  have htn : (max.toNat : Int) = max := Int.toNat_of_nonneg (by omega)
  refine ⟨?_, ?_, ?_⟩
  · simp only [List.length_map, List.length_take]
    omega
  · simp only [List.map_eq_nil_iff, List.take_eq_nil_iff]
    constructor
    · rintro (h0 | h0)
      · omega
      · exact h0
    · intro h0; right; exact h0
  · intro row hrow
    simp only [List.mem_map] at hrow
    obtain ⟨src, hsrc, hfeq⟩ := hrow
    have hsrc2 : src ∈ ctx.cursor.rows := List.take_subset _ _ hsrc
    have hslen : src.length = (ctx.metadata_cache.map Prod.fst).length := by
      simp [hlen src hsrc2]
    have hrd : rowDict (ctx.metadata_cache.map Prod.fst) src
        = (ctx.metadata_cache.map Prod.fst).zip (src.map pyStr) :=
      rowDict_eq _ _ hnd hslen
    subst hfeq
    refine ⟨?_, src, hsrc2, hrd⟩
    rw [hrd]
    exact List.map_fst_zip _ _ (by simp [hslen])

/-- Witness for C2 at a concrete two-column, three-row context and
`max = 2`. -/
def ctxC2 : PagingContext :=
  { cursor := { description := some [("a", "int"), ("b", "str")], rowcount := -1,
                rows := [[.vInt 1, .vStr "x"], [.vInt 2, .vStr "y"], [.vInt 3, .vStr "z"]] },
    metadata_cache := [("a", "int"), ("b", "str")] }

/-- C2 witness: the theorem applied to `ctxC2` with page size 2. -/
theorem C2_page_shape_witness :
    (1 : Int) ≤ 2
    ∧ (ctxC2.metadata_cache.map Prod.fst).Nodup
    ∧ (∀ r ∈ ctxC2.cursor.rows, r.length = ctxC2.metadata_cache.length)
    ∧ (((ctxC2.page 2).1.length : Int) ≤ 2
      ∧ ((ctxC2.page 2).1 = [] ↔ ctxC2.cursor.rows = [])
      ∧ ∀ row ∈ (ctxC2.page 2).1,
          row.map Prod.fst = ctxC2.metadata_cache.map Prod.fst
          ∧ ∃ src ∈ ctxC2.cursor.rows,
              row = (ctxC2.metadata_cache.map Prod.fst).zip (src.map pyStr)) :=
  ⟨by decide, by decide, by decide,
   C2_page_shape ctxC2 2 (by decide) (by decide) (by decide)⟩

/-- Repeated paging consumes a prefix of the cursor: the concatenation of
all pages is the stringified consumed prefix, each page respects its
requested size, and an empty page can only appear once the cursor is
fully drained. -/
theorem pageSeq_spec : ∀ (maxs : List Int) (ctx : PagingContext),
    (∀ m ∈ maxs, 1 ≤ m) →
    ∃ k : Nat,
      (pageSeq ctx maxs).2
        = { ctx with cursor := { ctx.cursor with rows := ctx.cursor.rows.drop k } }
      ∧ (pageSeq ctx maxs).1.flatten
          = (ctx.cursor.rows.take k).map (rowDict (ctx.metadata_cache.map Prod.fst))
      ∧ List.Forall₂ (fun (p : List (List (String × String))) m => (p.length : Int) ≤ m)
          (pageSeq ctx maxs).1 maxs
      ∧ ([] ∈ (pageSeq ctx maxs).1 → ctx.cursor.rows.drop k = [])
  | [], ctx, _ => by
    refine ⟨0, ?_, by simp [pageSeq], .nil, by simp [pageSeq]⟩
    simp [pageSeq]
  | m :: ms, ctx, h => by
    have hm : 1 ≤ m := h m (by simp)
    have hms : ∀ x ∈ ms, 1 ≤ x := fun x hx => h x (by simp [hx])
    have hpage := page_spec ctx m hm
    have hmeta : ((ctx.page m).2).metadata_cache = ctx.metadata_cache := by
      rw [hpage]
    obtain ⟨k2, hctx2, hjoin2, hfa2, hempty2⟩ := pageSeq_spec ms (ctx.page m).2 hms
    have htn : (m.toNat : Int) = m := Int.toNat_of_nonneg (by omega)
    refine ⟨m.toNat + k2, ?_, ?_, ?_, ?_⟩
    · simp only [pageSeq]
      rw [hctx2, hpage]
      simp [List.drop_drop, Nat.add_comm]
    · simp only [pageSeq, List.flatten_cons]
      rw [hjoin2, hpage]
      rw [List.take_add, List.map_append]
    · simp only [pageSeq]
      refine List.Forall₂.cons ?_ hfa2
      rw [hpage]
      simp only [List.length_map, List.length_take]
      omega
    · simp only [pageSeq, List.mem_cons]
      rintro (h0 | h0)
      · have : ctx.cursor.rows.take m.toNat = [] := by
          rw [hpage] at h0
          simpa using h0.symm
        have hrows : ctx.cursor.rows = [] := by
          rcases List.take_eq_nil_iff.mp this with h1 | h1
          · omega
          · exact h1
        simp [hrows]
      · have := hempty2 h0
        rw [hpage] at this
        simp only [List.drop_drop] at this
        exact this

/-- C4: paging a finite result set repeatedly (each call with a size
≥ 1) until an empty page appears yields pages whose concatenation is
exactly the full result set in cursor order — no row duplicated, none
skipped — and no page exceeds its requested size. -/
theorem C4_page_partition (ctx : PagingContext) (maxs : List Int)
    (h : ∀ m ∈ maxs, 1 ≤ m) :
    List.Forall₂ (fun (p : List (List (String × String))) m => (p.length : Int) ≤ m)
      (pageSeq ctx maxs).1 maxs
    ∧ ([] ∈ (pageSeq ctx maxs).1 →
        (pageSeq ctx maxs).1.flatten
          = ctx.cursor.rows.map (rowDict (ctx.metadata_cache.map Prod.fst))) := by
  obtain ⟨k, _, hjoin, hfa, hempty⟩ := pageSeq_spec maxs ctx h
  refine ⟨hfa, fun h0 => ?_⟩
  have hdrop := hempty h0
  have hlen : ctx.cursor.rows.length ≤ k := List.drop_eq_nil_iff.mp hdrop
  rw [hjoin, List.take_of_length_le hlen]

/-- Witness data for C4: a two-row result set drained by two page calls
of size 2 (the second page is empty). -/
def ctxC4 : PagingContext :=
  { cursor := { description := some [("a", "int")], rowcount := -1,
                rows := [[.vInt 1], [.vInt 2]] },
    metadata_cache := [("a", "int")] }

/-- C4 witness: the theorem applied to `ctxC4` with sizes [2, 2]; the
trace does reach an empty page. -/
theorem C4_page_partition_witness :
    (∀ m ∈ ([2, 2] : List Int), 1 ≤ m)
    ∧ [] ∈ (pageSeq ctxC4 [2, 2]).1
    ∧ (List.Forall₂ (fun (p : List (List (String × String))) m => (p.length : Int) ≤ m)
        (pageSeq ctxC4 [2, 2]).1 [2, 2]
      ∧ ([] ∈ (pageSeq ctxC4 [2, 2]).1 →
          (pageSeq ctxC4 [2, 2]).1.flatten
            = ctxC4.cursor.rows.map (rowDict (ctxC4.metadata_cache.map Prod.fst)))) :=
  ⟨by decide, by decide, C4_page_partition ctxC4 [2, 2] (by decide)⟩

/-- Effect of one attribute invocation on the session phase: an accepted
`execute` makes it active, an accepted `finish` makes it idle, and every
other call — and every rejected call — leaves the phase unchanged. -/
theorem step_active (drv : Driver) (st : RPCState) (a : RpcAttr) (ps : Params) :
    (callAttr drv st a ps).2.page_context.isSome =
      (match a with
       | .execute => excOk (callAttr drv st a ps).1 || st.page_context.isSome
       | .finish => !excOk (callAttr drv st a ps).1 && st.page_context.isSome
       | _ => st.page_context.isSome) := by
  cases a with
  | execute =>
    simp only [callAttr]
    rcases hb : bindArgs ["sql"] ps with _ | (_ | ⟨sql, _ | ⟨x, xs⟩⟩)
    · simp [excOk]
    · simp [excOk]
    · simp only [RPC.execute]
      rcases hpc : st.page_context with _ | ctx
      · rcases he : drv.exec sql with e | c
        · simp [excOk, hpc, he]
        · rcases hmk : mkPagingContext c with e | ctx2
          · simp [excOk, hpc, he, hmk]
          · simp [excOk, hpc, he, hmk]
      · simp [excOk, hpc]
    · simp [excOk]
  | finish =>
    simp only [callAttr]
    rcases hb : bindArgs [] ps with _ | l
    · simp [excOk]
    · simp only [RPC.finish]
      rcases hpc : st.page_context with _ | ctx
      · simp [excOk, hpc]
      · simp [excOk, hpc]
  | page =>
    simp only [callAttr]
    rcases hb : bindArgs ["max"] ps with _ | (_ | ⟨m, _ | ⟨x, xs⟩⟩)
    · simp [excOk]
    · simp [excOk]
    · simp only [RPC.page]
      rcases hpc : st.page_context with _ | ctx
      · simp [excOk, hpc]
      · rcases hz : pyLeZero m with e | b
        · simp [excOk, hpc, hz]
        · cases b
          · simp [excOk, hpc, hz]
          · simp [excOk, hpc, hz]
    · simp [excOk]
  | tables =>
    simp only [callAttr]
    rcases hb : bindArgs [] ps with _ | l
    · simp
    · simp only [RPC.tables, RPC.table_like]
      rcases ht : drv.tablesList with e | rows
      · simp [ht]
      · rcases hl : tableLikeLoop (.str "table") rows with e | objs
        · simp [ht, hl]
        · simp [ht, hl]
  | views =>
    simp only [callAttr]
    rcases hb : bindArgs [] ps with _ | l
    · simp
    · simp only [RPC.views, RPC.table_like]
      rcases ht : drv.tablesList with e | rows
      · simp [ht]
      · rcases hl : tableLikeLoop (.str "view") rows with e | objs
        · simp [ht, hl]
        · simp [ht, hl]
  | columns =>
    simp only [callAttr]
    rcases hb : bindArgs ["catalog", "schema", "table"] ps with _ | (_ | ⟨c, _ | ⟨s, _ | ⟨t, _ | _⟩⟩⟩)
    · simp
    · simp
    · simp
    · simp
    · simp only [RPC.columns]
      rcases hc : drv.columnsList t (if pyFalsy c then none else some c)
          (if pyFalsy s then none else some s) with e | rows
      · simp [hc]
      · simp [hc]
    · simp
  | metadata =>
    simp only [callAttr]
    rcases hb : bindArgs [] ps with _ | l
    · simp
    · simp only [RPC.metadata]
      rcases hpc : st.page_context with _ | ctx
      · simp [hpc]
      · simp [hpc]
  | count =>
    simp only [callAttr]
    rcases hb : bindArgs [] ps with _ | l
    · simp
    · simp only [RPC.count]
      rcases hpc : st.page_context with _ | ctx
      · simp [hpc]
      · simp [hpc]
  | quit =>
    simp only [callAttr]
    rcases hb : bindArgs [] ps with _ | l
    · simp
    · simp only [RPC.quit]
      rcases hpc : st.page_context with _ | ctx
      · simp only [connClose]
        rcases hcc : st.conn_closed with _ | _
        · simp only [Bool.false_eq_true, if_false]
          rcases hs : st.shutdown_fn with _ | _ | v
          · simp [hpc]
          · simp [hpc]
          · simp [hpc]
        · simp [hpc]
      · simp [hpc]
  | set_shutdown =>
    simp only [callAttr]
    rcases hb : bindArgs ["fn"] ps with _ | (_ | ⟨v, _ | ⟨x, xs⟩⟩)
    · simp
    · simp
    · simp
    · simp
  | table_like =>
    simp only [callAttr]
    rcases hb : bindArgs ["target_kind"] ps with _ | (_ | ⟨k, _ | ⟨x, xs⟩⟩)
    · simp
    · simp
    · simp only [RPC.table_like]
      rcases ht : drv.tablesList with e | rows
      · simp [ht]
      · rcases hl : tableLikeLoop k rows with e | objs
        · simp [ht, hl]
        · simp [ht, hl]
    · simp
  | connection => simp [callAttr]
  | page_context => simp [callAttr]
  | shutdown_fn =>
    simp only [callAttr]
    rcases hs : st.shutdown_fn with _ | _ | v
    · simp [hs]
    · rcases hb : bindArgs [] ps with _ | l
      · simp [hs]
      · simp [hs]
    · simp [hs]

/-- C1: the Session holds at most one Paging Context at every point by
construction (`RPCState.page_context` is a single `Option`), and for any
driver and any sequence of RPC-surface invocations, the session is in the
ActiveQuery phase (`page_context.isSome`) exactly when the trace fold
says so: the last accepted state-changing call was `execute` with no
intervening accepted `finish` (starting from the phase of the initial
state; `initState` starts idle). -/
theorem C1_active_iff_trace (drv : Driver) :
    ∀ (ops : List (RpcAttr × Params)) (st : RPCState),
      (runOps drv st ops).page_context.isSome
        = specActive drv st ops st.page_context.isSome
  | [], st => rfl
  | o :: os, st => by
    simp only [runOps, specActive]
    rw [C1_active_iff_trace drv os (stepOp drv st o).2]
    have hstep := step_active drv st o.1 o.2
    congr 1

/-- C3: calling `execute` while a query is active always fails with the
state-machine rejection and leaves the session — in particular the
existing Paging Context — untouched, so `metadata`, `count`, and `page`
(with a positive size) still succeed on it afterwards; and when the
driver raises during `execute` in the idle state, the error surfaces and
the session is left idle with no dangling Paging Context. -/
theorem C3_execute_isolation (drv : Driver) (st : RPCState) (sql : JVal) :
    (∀ ctx, st.page_context = some ctx →
      (RPC.execute drv st sql).1
          = .error (.valueError "Cannot have active query when calling execute()")
      ∧ (RPC.execute drv st sql).2 = st
      ∧ excOk (RPC.metadata (RPC.execute drv st sql).2).1 = true
      ∧ excOk (RPC.count (RPC.execute drv st sql).2).1 = true
      ∧ ∀ m : Int, 1 ≤ m →
          excOk (RPC.page (RPC.execute drv st sql).2 (.num m)).1 = true)
    ∧ (st.page_context = none →
        ∀ e, drv.exec sql = .error e →
          (RPC.execute drv st sql).1 = .error e
          ∧ (RPC.execute drv st sql).2 = st) := by
  constructor
  · intro ctx h
    refine ⟨by simp [RPC.execute, h], by simp [RPC.execute, h], ?_, ?_, ?_⟩
    · simp [RPC.execute, RPC.metadata, h, excOk]
    · simp [RPC.execute, RPC.count, h, excOk]
    · intro m hm
      have hz : ¬ (m ≤ 0) := by omega
      simp [RPC.execute, RPC.page, h, pyLeZero, hz, excOk]
  · intro h e he
    constructor
    · simp [RPC.execute, h, he]
    · simp [RPC.execute, h, he]

/-- Driver used by the C3 witness: every statement fails. -/
def drvC3 : Driver :=
  { exec := fun _ => .error (.otherError "syntax error"), tablesList := .ok [],
    columnsList := fun _ _ _ => .ok [] }

/-- Paging context used by the C3 witness. -/
def ctxC3 : PagingContext :=
  { cursor := { description := some [("a", "int")], rowcount := 0, rows := [[.vInt 7]] },
    metadata_cache := [("a", "int")] }

/-- Session used by the C3 witness: one active single-column context. -/
def stC3 : RPCState :=
  { initState with page_context := some ctxC3 }

/-- C3 witness: the theorem applied with the failing driver, once in an
active session (part one) and once in the idle session (part two). -/
theorem C3_execute_isolation_witness :
    ((RPC.execute drvC3 stC3 (.str "SELECT 1")).1
        = .error (.valueError "Cannot have active query when calling execute()")
      ∧ (RPC.execute drvC3 stC3 (.str "SELECT 1")).2 = stC3
      ∧ excOk (RPC.metadata (RPC.execute drvC3 stC3 (.str "SELECT 1")).2).1 = true
      ∧ excOk (RPC.count (RPC.execute drvC3 stC3 (.str "SELECT 1")).2).1 = true
      ∧ ∀ m : Int, 1 ≤ m →
          excOk (RPC.page (RPC.execute drvC3 stC3 (.str "SELECT 1")).2 (.num m)).1 = true)
    ∧ ((RPC.execute drvC3 initState (.str "SELECT 1")).1
        = .error (.otherError "syntax error")
      ∧ (RPC.execute drvC3 initState (.str "SELECT 1")).2 = initState) :=
  ⟨(C3_execute_isolation drvC3 stC3 (.str "SELECT 1")).1
      ctxC3 rfl,
   (C3_execute_isolation drvC3 initState (.str "SELECT 1")).2
      rfl (.otherError "syntax error") rfl⟩

/-- C8 counterexample: `page(0)` in the idle session fails, but with the
no-active-query state error, not the page-size argument error the claim
requires for every `page(0)` call — the state check precedes the size
check. -/
theorem C8_counterexample :
    (RPC.page initState (.num 0)).1
        = .error (.valueError "Must have active query before calling page()")
    ∧ (RPC.page initState (.num 0)).1
        ≠ .error (.valueError "Page size must be a positive integer") := by
  refine ⟨rfl, ?_⟩
  intro h
  have h2 := h.symm.trans (rfl :
    (RPC.page initState (.num 0)).1
      = .error (.valueError "Must have active query before calling page()"))
  injection h2 with h3
  injection h3 with h4
  simp at h4

/-- C8 amended: `page(0)` and `page(-1)` always fail and the size is
never clamped — with the page-size argument error when a query is active,
but with the no-active-query state error when the session is idle (the
state check precedes the size check); and after an accepted `finish`,
`page` always fails with the state error, whatever the size. -/
theorem C8_amended_page_errors (st : RPCState) :
    (∀ ctx, st.page_context = some ctx →
      (RPC.page st (.num 0)).1
          = .error (.valueError "Page size must be a positive integer")
      ∧ (RPC.page st (.num (-1))).1
          = .error (.valueError "Page size must be a positive integer")
      ∧ (RPC.page st (.num 0)).2 = st
      ∧ (RPC.page st (.num (-1))).2 = st)
    ∧ (∀ ctx, st.page_context = some ctx →
      (RPC.finish st).1 = .ok (.bool true)
      ∧ (RPC.finish st).2.page_context = none
      ∧ ∀ m, (RPC.page (RPC.finish st).2 m).1
          = .error (.valueError "Must have active query before calling page()"))
    ∧ (st.page_context = none →
      ∀ m, (RPC.page st m).1
          = .error (.valueError "Must have active query before calling page()")) := by
  refine ⟨?_, ?_, ?_⟩
  · intro ctx h
    refine ⟨?_, ?_, ?_, ?_⟩ <;> simp [RPC.page, h, pyLeZero]
  · intro ctx h
    refine ⟨by simp [RPC.finish, h], by simp [RPC.finish, h], ?_⟩
    intro m
    simp [RPC.finish, RPC.page, h]
  · intro h m
    simp [RPC.page, h]

/-- C8 witness: the amended theorem applied to a concrete active session
(argument errors, then finish-then-page) and to the idle session. -/
theorem C8_amended_page_errors_witness :
    ((RPC.page stC3 (.num 0)).1
        = .error (.valueError "Page size must be a positive integer")
      ∧ (RPC.page stC3 (.num (-1))).1
        = .error (.valueError "Page size must be a positive integer")
      ∧ (RPC.page stC3 (.num 0)).2 = stC3
      ∧ (RPC.page stC3 (.num (-1))).2 = stC3)
    ∧ ((RPC.finish stC3).1 = .ok (.bool true)
      ∧ (RPC.finish stC3).2.page_context = none
      ∧ ∀ m, (RPC.page (RPC.finish stC3).2 m).1
          = .error (.valueError "Must have active query before calling page()"))
    ∧ (∀ m, (RPC.page initState m).1
          = .error (.valueError "Must have active query before calling page()")) :=
  ⟨(C8_amended_page_errors stC3).1 ctxC3 rfl,
   (C8_amended_page_errors stC3).2.1 ctxC3 rfl,
   (C8_amended_page_errors initState).2.2 rfl⟩

/-- A `page` call preserves the presence of a context and its cached
Column Descriptors, whether the call is accepted or rejected. -/
theorem RPC_page_preserves_metadata (st : RPCState) (m : JVal) (ctx : PagingContext)
    (h : st.page_context = some ctx) :
    ∃ ctx2, (RPC.page st m).2.page_context = some ctx2
      ∧ ctx2.metadata_cache = ctx.metadata_cache := by
  simp only [RPC.page, h]
  rcases hz : pyLeZero m with e | b
  · exact ⟨ctx, by simp [h], rfl⟩
  · cases b
    · exact ⟨(ctx.page (pyInt m)).2, by simp, by simp [PagingContext.page]⟩
    · exact ⟨ctx, by simp [h], rfl⟩

/-- C9: Column Descriptors are captured exactly once, at Paging Context
construction, from the cursor's result description (first conjunct), and
within one ActiveQuery lifetime the `metadata()` response is unchanged by
any interleaved sequence of `page` calls (second conjunct). -/
theorem C9_metadata_stable (st : RPCState) (ctx : PagingContext) (maxs : List JVal)
    (h : st.page_context = some ctx) :
    (∀ c d, c.description = some d →
      mkPagingContext c = .ok { cursor := c, metadata_cache := d })
    ∧ ∃ ctx2, (applyPages st maxs).page_context = some ctx2
        ∧ ctx2.metadata_cache = ctx.metadata_cache
        ∧ (RPC.metadata (applyPages st maxs)).1 = (RPC.metadata st).1 := by
  refine ⟨fun c d hd => by simp [mkPagingContext, hd], ?_⟩
  induction maxs generalizing st ctx with
  | nil => exact ⟨ctx, h, rfl, rfl⟩
  | cons m ms ih =>
    obtain ⟨ctx1, h1, hm1⟩ := RPC_page_preserves_metadata st m ctx h
    obtain ⟨ctx2, h2, hm2, hmeta2⟩ := ih (RPC.page st m).2 ctx1 h1
    refine ⟨ctx2, h2, hm2.trans hm1, ?_⟩
    simp only [applyPages]
    rw [hmeta2]
    simp only [RPC.metadata, h, h1, PagingContext.metadata, hm1]

/-- C9 witness: the theorem applied to the concrete active session with
two interleaved page calls. -/
theorem C9_metadata_stable_witness :
    (∀ c d, c.description = some d →
      mkPagingContext c = .ok { cursor := c, metadata_cache := d })
    ∧ ∃ ctx2, (applyPages stC3 [.num 1, .num 1]).page_context = some ctx2
        ∧ ctx2.metadata_cache = ctxC3.metadata_cache
        ∧ (RPC.metadata (applyPages stC3 [.num 1, .num 1])).1
            = (RPC.metadata stC3).1 :=
  C9_metadata_stable stC3 ctxC3 [.num 1, .num 1] rfl

/-- An error envelope built with `keep_null_id=True` is always present and
carries the given id, code, message, and diagnostic. -/
theorem build_rpc_error_keep_fields (id : JVal) (code : Int) (msg excMsg : String) :
    ∃ env, build_rpc_error id code msg excMsg true = some env
      ∧ getField env "id" = some id
      ∧ getErrCode env = some code
      ∧ getErrMessage env = some msg
      ∧ getStacktrace env = some (excMsg ++ "\n") :=
  ⟨.obj [("jsonrpc", .str "2.0"), ("id", id),
    ("error", .obj [("code", .num code), ("message", .str msg),
      ("data", .obj [("stacktrace", .str (excMsg ++ "\n"))])])],
   by simp [build_rpc_error], rfl, rfl, rfl, rfl⟩

/-- An error envelope built for a non-null id is always present and
carries the given id, code, message, and diagnostic. -/
theorem build_rpc_error_nonnull_fields (id : JVal) (code : Int) (msg excMsg : String)
    (k : Bool) (h : id.isNull = false) :
    ∃ env, build_rpc_error id code msg excMsg k = some env
      ∧ getField env "id" = some id
      ∧ getErrCode env = some code
      ∧ getErrMessage env = some msg
      ∧ getStacktrace env = some (excMsg ++ "\n") :=
  ⟨.obj [("jsonrpc", .str "2.0"), ("id", id),
    ("error", .obj [("code", .num code), ("message", .str msg),
      ("data", .obj [("stacktrace", .str (excMsg ++ "\n"))])])],
   by simp [build_rpc_error, h], rfl, rfl, rfl, rfl⟩

/-- A result envelope built for a non-null id is always present, carries
the id and result, and has no error member. -/
theorem build_rpc_result_fields (id v : JVal) (h : id.isNull = false) :
    ∃ env, build_rpc_result id v = some env
      ∧ getField env "id" = some id
      ∧ getField env "result" = some v
      ∧ getErrCode env = none :=
  ⟨.obj [("jsonrpc", .str "2.0"), ("id", id), ("result", v)],
   by simp [build_rpc_result, h], rfl, rfl, rfl⟩

/-- `_process_request` on a dict entry: it never crashes, a non-null-id
entry always gets a response, and any response on a null-id entry can
only be the Invalid Request envelope (so successful notifications — and
failed ones past validation — are suppressed). -/
theorem process_obj_spec (drv : Driver) (st : RPCState) (kvs : List (String × JVal)) :
    ∃ r st2, process_request drv st (.obj kvs) = .ok r st2
      ∧ ((pyId kvs).isNull = false → r.isSome = true)
      ∧ (∀ env, r = some env →
          (pyId kvs).isNull = false ∨ getErrCode env = some (-32600)) := by
  cases hv : validate_rpc_request kvs with
  | some msg =>
    obtain ⟨env, he, _, hcode, _, _⟩ :=
      build_rpc_error_keep_fields .null (-32600) "Invalid Request" msg
    refine ⟨some env, st, ?_, fun _ => rfl, ?_⟩
    · simp [process_request, hv, he]
    · rintro env2 h2
      injection h2 with h2
      subst h2
      exact Or.inr hcode
  | none =>
    cases hr : resolveAttr (methodOf kvs) with
    | none =>
      cases hid : (pyId kvs).isNull with
      | true =>
        refine ⟨none, st, ?_, by simp [hid], fun env h => nomatch h⟩
        simp [process_request, hv, hr, build_rpc_error, hid]
      | false =>
        obtain ⟨env, he, _, hcode, _, _⟩ :=
          build_rpc_error_nonnull_fields (pyId kvs) (-32601) "Method not found"
            ("RPC object has no attribute " ++ methodOf kvs) false hid
        refine ⟨some env, st, ?_, fun _ => rfl, fun env2 h2 => Or.inl rfl⟩
        simp [process_request, hv, hr, he]
    | some a =>
      rcases hc : (callAttr drv st a (paramsOf kvs)).1 with e | v
      · cases e with
        | typeError m =>
          cases hid : (pyId kvs).isNull with
          | true =>
            refine ⟨none, (callAttr drv st a (paramsOf kvs)).2, ?_,
              by simp [hid], fun env h => nomatch h⟩
            simp [process_request, hv, hr, hc, build_rpc_error, hid]
          | false =>
            obtain ⟨env, he, _, hcode, _, _⟩ :=
              build_rpc_error_nonnull_fields (pyId kvs) (-32602) "Invalid params" m false hid
            refine ⟨some env, (callAttr drv st a (paramsOf kvs)).2, ?_, fun _ => rfl, fun env2 h2 => Or.inl rfl⟩
            simp [process_request, hv, hr, hc, he]
        | valueError m =>
          cases hid : (pyId kvs).isNull with
          | true =>
            refine ⟨none, (callAttr drv st a (paramsOf kvs)).2, ?_, by simp [hid], fun env h => nomatch h⟩
            simp [process_request, hv, hr, hc, build_rpc_error, hid]
          | false =>
            obtain ⟨env, he, _, hcode, _, _⟩ :=
              build_rpc_error_nonnull_fields (pyId kvs) (-32603) "Internal Error" m false hid
            refine ⟨some env, (callAttr drv st a (paramsOf kvs)).2, ?_, fun _ => rfl, fun env2 h2 => Or.inl rfl⟩
            simp [process_request, hv, hr, hc, he]
        | otherError m =>
          cases hid : (pyId kvs).isNull with
          | true =>
            refine ⟨none, (callAttr drv st a (paramsOf kvs)).2, ?_, by simp [hid], fun env h => nomatch h⟩
            simp [process_request, hv, hr, hc, build_rpc_error, hid]
          | false =>
            obtain ⟨env, he, _, hcode, _, _⟩ :=
              build_rpc_error_nonnull_fields (pyId kvs) (-32603) "Internal Error" m false hid
            refine ⟨some env, (callAttr drv st a (paramsOf kvs)).2, ?_, fun _ => rfl, fun env2 h2 => Or.inl rfl⟩
            simp [process_request, hv, hr, hc, he]
      · cases hid : (pyId kvs).isNull with
        | true =>
          refine ⟨none, (callAttr drv st a (paramsOf kvs)).2, ?_, by simp [hid], fun env h => nomatch h⟩
          simp [process_request, hv, hr, hc, build_rpc_result, hid]
        | false =>
          obtain ⟨env, he, _, _, _⟩ := build_rpc_result_fields (pyId kvs) v hid
          refine ⟨some env, (callAttr drv st a (paramsOf kvs)).2, ?_, fun _ => rfl, fun env2 h2 => Or.inl rfl⟩
          simp [process_request, hv, hr, hc, he]

/-- The batch comprehension on a list of dict entries never crashes and
produces exactly one (possibly suppressed) outcome per entry, in order;
positionally, a non-notification entry's outcome is always present and a
notification entry's outcome can only be the Invalid Request envelope. -/
theorem run_batch_spec (drv : Driver) :
    ∀ (entries : List JVal) (st : RPCState), (∀ e ∈ entries, isObj e = true) →
      ∃ rs st2, run_batch drv st entries = (some rs, st2)
        ∧ List.Forall₂
            (fun (e : JVal) (r : Option JVal) =>
              (isNonNotif e = true → r.isSome = true)
              ∧ ∀ env, r = some env →
                  isNonNotif e = true ∨ getErrCode env = some (-32600))
            entries rs
  | [], st, _ => ⟨[], st, rfl, .nil⟩
  | e :: rest, st, h => by
    have he : isObj e = true := h e (by simp)
    rcases e with _ | b | n | s | l | kvs
    · exact absurd he (by simp [isObj])
    · exact absurd he (by simp [isObj])
    · exact absurd he (by simp [isObj])
    · exact absurd he (by simp [isObj])
    · exact absurd he (by simp [isObj])
    · obtain ⟨r, st2, hp, hnn, hsup⟩ := process_obj_spec drv st kvs
      obtain ⟨rs2, st3, hb2, hfa2⟩ :=
        run_batch_spec drv rest st2 (fun x hx => h x (by simp [hx]))
      refine ⟨r :: rs2, st3, ?_, ?_⟩
      · simp [run_batch, hp, hb2]
      · exact List.Forall₂.cons
          ⟨fun hn => hnn (by simpa [isNonNotif] using hn),
           fun env hr => (hsup env hr).imp_left (fun hx => by simpa [isNonNotif] using hx)⟩
          hfa2

/-- The literal batch of the claim, exactly as written there: the
entries carry no `jsonrpc` member. -/
def batchC5lit : List JVal :=
  [.obj [("id", .num 1), ("method", .str "count")],
   .obj [("id", .null), ("method", .str "bogus")]]

/-- The envelope each literal-batch entry produces: Invalid Request,
reported with the id forced to null. -/
def invReqEnvC5 : JVal :=
  .obj [("jsonrpc", .str "2.0"), ("id", .null),
    ("error", .obj [("code", .num (-32600)), ("message", .str "Invalid Request"),
      ("data", .obj [("stacktrace", .str "Invalid jsonrpc: must be \"2.0\"\n")])])]

/-- C5 counterexample: the claim's literal batch
`[{id:1, method:"count"}, {id:null, method:"bogus"}]` carries no
`jsonrpc` member, so with no active query both entries fail envelope
validation and the response list has two Invalid Request entries — not
the single Internal Error entry the claim states. -/
theorem C5_counterexample :
    handle_decoded noDriver initState (.ok (.arr batchC5lit))
      = (.body (.arr [invReqEnvC5, invReqEnvC5]), initState)
    ∧ getErrCode invReqEnvC5 = some (-32600) :=
  ⟨rfl, rfl⟩

/-- The claim's batch with the mandatory `jsonrpc` version member made
explicit. -/
def batchC5 : List JVal :=
  [.obj [("jsonrpc", .str "2.0"), ("id", .num 1), ("method", .str "count")],
   .obj [("jsonrpc", .str "2.0"), ("id", .null), ("method", .str "bogus")]]

/-- The single response it yields: an Internal Error for id 1 whose
diagnostic carries the no-active-query rejection message (the message
text is the one `RPC.count` actually raises). -/
def c5ErrEnv : JVal :=
  .obj [("jsonrpc", .str "2.0"), ("id", .num 1),
    ("error", .obj [("code", .num (-32603)), ("message", .str "Internal Error"),
      ("data", .obj [("stacktrace", .str "Must have active query before calling metadata()\n")])])]

/-- C5 amended: for every batch of (dict) entries, each non-notification
entry yields exactly one outcome, the response list preserves the
relative order of the requests (the outcomes are positionally matched to
the entries and the suppressed ones are filtered out in place), and past
validation a notification entry yields no response entry; in particular
the batch `[{jsonrpc:"2.0", id:1, method:"count"}, {jsonrpc:"2.0",
id:null, method:"bogus"}]` with no active query yields exactly one
response entry — an Internal Error for id 1 whose diagnostic carries the
no-active-query message — with the unknown-method notification entry
suppressed. -/
theorem C5_amended_batch (drv : Driver) (st : RPCState) :
    (∀ entries, (∀ e ∈ entries, isObj e = true) →
      ∃ rs st2, run_batch drv st entries = (some rs, st2)
        ∧ handle_decoded drv st (.ok (.arr entries))
            = (.body (.arr (rs.filterMap id)), st2)
        ∧ List.Forall₂
            (fun (e : JVal) (r : Option JVal) =>
              (isNonNotif e = true → r.isSome = true)
              ∧ ∀ env, r = some env →
                  isNonNotif e = true ∨ getErrCode env = some (-32600))
            entries rs)
    ∧ (st.page_context = none →
        handle_decoded drv st (.ok (.arr batchC5)) = (.body (.arr [c5ErrEnv]), st)) := by
  constructor
  · intro entries hobj
    obtain ⟨rs, st2, hb, hfa⟩ := run_batch_spec drv entries st hobj
    exact ⟨rs, st2, hb, by simp [handle_decoded, hb], hfa⟩
  · intro h
    simp [handle_decoded, run_batch, process_request, validate_rpc_request, pyGet,
      jsonrpcTagOk, idMemberOk, methodMemberOk, paramsMemberOk,
      pyId, methodOf, paramsOf, resolveAttr, callAttr, bindArgs, RPC.count, h,
      build_rpc_error, build_rpc_result, batchC5, c5ErrEnv, JVal.isNull]

/-- C5 witness: the amended theorem applied to the concrete batch in the
idle initial session (which satisfies the all-dict-entries hypothesis). -/
theorem C5_amended_batch_witness :
    (∀ e ∈ batchC5, isObj e = true)
    ∧ (∃ rs st2, run_batch noDriver initState batchC5 = (some rs, st2)
        ∧ handle_decoded noDriver initState (.ok (.arr batchC5))
            = (.body (.arr (rs.filterMap id)), st2)
        ∧ List.Forall₂
            (fun (e : JVal) (r : Option JVal) =>
              (isNonNotif e = true → r.isSome = true)
              ∧ ∀ env, r = some env →
                  isNonNotif e = true ∨ getErrCode env = some (-32600))
            batchC5 rs)
    ∧ handle_decoded noDriver initState (.ok (.arr batchC5))
        = (.body (.arr [c5ErrEnv]), initState) :=
  ⟨by decide,
   (C5_amended_batch noDriver initState).1 batchC5 (by decide),
   (C5_amended_batch noDriver initState).2 rfl⟩

/-- The declared parameter lists of the nine named RPC operations. -/
def rpcArity : RpcAttr → Option (List String)
  | .tables => some []
  | .views => some []
  | .columns => some ["catalog", "schema", "table"]
  | .execute => some ["sql"]
  | .metadata => some []
  | .count => some []
  | .page => some ["max"]
  | .finish => some []
  | .quit => some []
  | _ => none

/-- Calling one of the nine operations with a positional argument list of
the wrong length raises `TypeError` before the body runs, leaving the
session untouched. -/
theorem callAttr_arity_mismatch (drv : Driver) (st : RPCState) (a : RpcAttr)
    (names : List String) (l : List JVal)
    (ha : rpcArity a = some names) (hl : l.length ≠ names.length) :
    ∃ m, callAttr drv st a (.pos l) = (.error (.typeError m), st) := by
  simp only [rpcArity] at ha
  cases a with
  | tables =>
    injection ha with ha
    subst ha
    have hb : bindArgs [] (Params.pos l) = none := if_neg hl
    simp only [callAttr, hb]
    exact ⟨_, rfl⟩
  | views =>
    injection ha with ha
    subst ha
    have hb : bindArgs [] (Params.pos l) = none := if_neg hl
    simp only [callAttr, hb]
    exact ⟨_, rfl⟩
  | columns =>
    injection ha with ha
    subst ha
    have hb : bindArgs ["catalog", "schema", "table"] (Params.pos l) = none := if_neg hl
    simp only [callAttr, hb]
    exact ⟨_, rfl⟩
  | execute =>
    injection ha with ha
    subst ha
    have hb : bindArgs ["sql"] (Params.pos l) = none := if_neg hl
    simp only [callAttr, hb]
    exact ⟨_, rfl⟩
  | metadata =>
    injection ha with ha
    subst ha
    have hb : bindArgs [] (Params.pos l) = none := if_neg hl
    simp only [callAttr, hb]
    exact ⟨_, rfl⟩
  | count =>
    injection ha with ha
    subst ha
    have hb : bindArgs [] (Params.pos l) = none := if_neg hl
    simp only [callAttr, hb]
    exact ⟨_, rfl⟩
  | page =>
    injection ha with ha
    subst ha
    have hb : bindArgs ["max"] (Params.pos l) = none := if_neg hl
    simp only [callAttr, hb]
    exact ⟨_, rfl⟩
  | finish =>
    injection ha with ha
    subst ha
    have hb : bindArgs [] (Params.pos l) = none := if_neg hl
    simp only [callAttr, hb]
    exact ⟨_, rfl⟩
  | quit =>
    injection ha with ha
    subst ha
    have hb : bindArgs [] (Params.pos l) = none := if_neg hl
    simp only [callAttr, hb]
    exact ⟨_, rfl⟩
  | set_shutdown => exact absurd ha (by simp)
  | table_like => exact absurd ha (by simp)
  | connection => exact absurd ha (by simp)
  | page_context => exact absurd ha (by simp)
  | shutdown_fn => exact absurd ha (by simp)

/-- The request used by the C6 counterexample: a name outside the nine
documented operations that nevertheless resolves by `getattr`. -/
def reqC6 : JVal :=
  .obj [("jsonrpc", .str "2.0"), ("id", .num 1),
        ("method", .str "set_shutdown"), ("params", .arr [.null])]

/-- C6 counterexample: dispatch resolves `method` by `getattr` on the RPC
object, not against the fixed set of nine operations: the name
`set_shutdown` is outside that set, yet the call succeeds — it overwrites
the session's shutdown callback and returns a result envelope (no error
member at all), instead of the Method Not Found (-32601) the claim
requires for any name outside the nine. -/
theorem C6_counterexample :
    process_request noDriver initState reqC6
      = .ok (some (.obj [("jsonrpc", .str "2.0"), ("id", .num 1), ("result", .null)]))
          { initState with shutdown_fn := .jsonVal .null }
    ∧ getErrCode (.obj [("jsonrpc", .str "2.0"), ("id", .num 1), ("result", .null)]) = none :=
  ⟨rfl, rfl⟩

/-- C6 amended: dispatch resolves `method` by attribute lookup on the RPC
object (so besides the nine operations, `set_shutdown`, `_table_like`,
the data fields, and the dunder attributes inherited from `object` —
e.g. `__init__`, `__str__`, whose exact set is interpreter-version
dependent — also resolve); a non-dunder name that resolves to no
attribute yields Method Not Found (-32601); a positional argument list
of the wrong length for one of the nine operations yields Invalid Params
(-32602); and any non-`TypeError` failure raised by the invoked
operation — state-machine rejections and driver failures — yields
Internal Error (-32603) whose message is "Internal Error" and whose
diagnostic data carries the failure's message followed by the
(abstracted) traceback text. -/
theorem C6_amended_dispatch (drv : Driver) (st : RPCState) (kvs : List (String × JVal)) :
    (validate_rpc_request kvs = none → resolveAttr (methodOf kvs) = none →
      isDunderName (methodOf kvs) = false →
      (pyId kvs).isNull = false →
      ∃ env, process_request drv st (.obj kvs) = .ok (some env) st
        ∧ getErrCode env = some (-32601)
        ∧ getErrMessage env = some "Method not found")
    ∧ (∀ a names l, validate_rpc_request kvs = none →
        resolveAttr (methodOf kvs) = some a → rpcArity a = some names →
        pyGet kvs "params" = some (.arr l) → l.length ≠ names.length →
        (pyId kvs).isNull = false →
        ∃ env, process_request drv st (.obj kvs) = .ok (some env) st
          ∧ getErrCode env = some (-32602)
          ∧ getErrMessage env = some "Invalid params")
    ∧ (∀ a e st2, validate_rpc_request kvs = none →
        resolveAttr (methodOf kvs) = some a →
        callAttr drv st a (paramsOf kvs) = (.error e, st2) →
        (∀ m, e ≠ .typeError m) →
        (pyId kvs).isNull = false →
        ∃ env, process_request drv st (.obj kvs) = .ok (some env) st2
          ∧ getErrCode env = some (-32603)
          ∧ getErrMessage env = some "Internal Error"
          ∧ getStacktrace env = some (e.msg ++ "\n")) := by
  refine ⟨?_, ?_, ?_⟩
  · intro hv hr _ hid
    obtain ⟨env, he, _, hcode, hmsg, _⟩ :=
      build_rpc_error_nonnull_fields (pyId kvs) (-32601) "Method not found"
        ("RPC object has no attribute " ++ methodOf kvs) false hid
    exact ⟨env, by simp [process_request, hv, hr, he], hcode, hmsg⟩
  · intro a names l hv hr ha hp hl hid
    obtain ⟨m, hcall⟩ := callAttr_arity_mismatch drv st a names l ha hl
    have hps : paramsOf kvs = .pos l := by simp [paramsOf, hp]
    obtain ⟨env, he, _, hcode, hmsg, _⟩ :=
      build_rpc_error_nonnull_fields (pyId kvs) (-32602) "Invalid params" m false hid
    refine ⟨env, ?_, hcode, hmsg⟩
    simp [process_request, hv, hr, hps, hcall, he]
  · intro a e st2 hv hr hcall hne hid
    cases e with
    | typeError m => exact absurd rfl (hne m)
    | valueError m =>
      obtain ⟨env, he, _, hcode, hmsg, htr⟩ :=
        build_rpc_error_nonnull_fields (pyId kvs) (-32603) "Internal Error" m false hid
      refine ⟨env, ?_, hcode, hmsg, htr⟩
      simp [process_request, hv, hr, hcall, he]
    | otherError m =>
      obtain ⟨env, he, _, hcode, hmsg, htr⟩ :=
        build_rpc_error_nonnull_fields (pyId kvs) (-32603) "Internal Error" m false hid
      refine ⟨env, ?_, hcode, hmsg, htr⟩
      simp [process_request, hv, hr, hcall, he]

/-- C6 witness requests: an unknown name, a known operation with an
extra positional argument, and a state-machine rejection. -/
def reqC6a : List (String × JVal) :=
  [("jsonrpc", .str "2.0"), ("id", .num 1), ("method", .str "bogus")]

def reqC6b : List (String × JVal) :=
  [("jsonrpc", .str "2.0"), ("id", .num 1), ("method", .str "tables"),
   ("params", .arr [.null])]

def reqC6c : List (String × JVal) :=
  [("jsonrpc", .str "2.0"), ("id", .num 1), ("method", .str "count")]

/-- C6 witness: the amended theorem applied to the three concrete
requests above (unknown method, arity mismatch on `tables`, and `count`
with no active query). -/
theorem C6_amended_dispatch_witness :
    (∃ env, process_request noDriver initState (.obj reqC6a) = .ok (some env) initState
      ∧ getErrCode env = some (-32601)
      ∧ getErrMessage env = some "Method not found")
    ∧ (∃ env, process_request noDriver initState (.obj reqC6b) = .ok (some env) initState
      ∧ getErrCode env = some (-32602)
      ∧ getErrMessage env = some "Invalid params")
    ∧ (∃ env, process_request noDriver initState (.obj reqC6c) = .ok (some env) initState
      ∧ getErrCode env = some (-32603)
      ∧ getErrMessage env = some "Internal Error"
      ∧ getStacktrace env
          = some ((PyExc.valueError "Must have active query before calling metadata()").msg ++ "\n")) :=
  ⟨(C6_amended_dispatch noDriver initState reqC6a).1 rfl rfl (by decide) rfl,
   (C6_amended_dispatch noDriver initState reqC6b).2.1 .tables [] [.null]
     rfl rfl rfl rfl (by decide) rfl,
   (C6_amended_dispatch noDriver initState reqC6c).2.2 .count
     (.valueError "Must have active query before calling metadata()") initState
     rfl rfl rfl (fun m h => PyExc.noConfusion h) rfl⟩

/-- Whether a decoded JSON value is an array (a Python list). -/
def isArr : JVal → Bool
  | .arr _ => true
  | _ => false

/-- C7 counterexample: a decoded top-level body that is neither an object
nor an array — here the number 5 — does NOT yield an Invalid Request
envelope: the else-branch builds the error without `keep_null_id`, the
builder suppresses it (`None`), and `_send_json(None)` sends the JSON
body `null`, which carries no error member at all. -/
theorem C7_counterexample :
    handle_decoded noDriver initState (.ok (.num 5)) = (.body .null, initState)
    ∧ getErrCode .null = none
    ∧ getField .null "error" = none :=
  ⟨rfl, rfl, rfl⟩

/-- C7 amended: an envelope whose `jsonrpc` member is not exactly the
string "2.0" always yields Invalid Request (-32600) with a null id,
regardless of the other members; a body that fails to decode as JSON
yields a single Parse Error (-32700) response with a null id; but a
decoded top-level body that is neither an object nor an array produces
the JSON body `null` (the Invalid Request envelope is suppressed by the
null-id rule), and an empty array is processed as an empty batch and
produces the body `[]`. -/
theorem C7_amended_validation (drv : Driver) (st : RPCState) :
    (∀ kvs, jsonrpcTagOk kvs = false →
      ∃ env, process_request drv st (.obj kvs) = .ok (some env) st
        ∧ getErrCode env = some (-32600)
        ∧ getErrMessage env = some "Invalid Request"
        ∧ getField env "id" = some .null)
    ∧ (∀ msg, ∃ env, handle_decoded drv st (.error msg) = (.body env, st)
        ∧ getErrCode env = some (-32700)
        ∧ getErrMessage env = some "Parse error"
        ∧ getField env "id" = some .null)
    ∧ (∀ v, isObj v = false → isArr v = false →
        handle_decoded drv st (.ok v) = (.body .null, st))
    ∧ handle_decoded drv st (.ok (.arr [])) = (.body (.arr []), st) := by
  refine ⟨?_, ?_, ?_, ?_⟩
  · intro kvs hjr
    have hv : validate_rpc_request kvs = some "Invalid jsonrpc: must be \"2.0\"" := by
      simp [validate_rpc_request, hjr]
    obtain ⟨env, he, hid, hcode, hmsg, _⟩ :=
      build_rpc_error_keep_fields .null (-32600) "Invalid Request"
        "Invalid jsonrpc: must be \"2.0\""
    refine ⟨env, ?_, hcode, hmsg, hid⟩
    simp [process_request, hv, he]
  · intro msg
    obtain ⟨env, he, hid, hcode, hmsg, _⟩ :=
      build_rpc_error_keep_fields .null (-32700) "Parse error" msg
    refine ⟨env, ?_, hcode, hmsg, hid⟩
    simp [handle_decoded, he]
  · rintro (_ | b | n | s | l | kvs) hobj harr
    · rfl
    · rfl
    · rfl
    · rfl
    · exact absurd harr (by simp [isArr])
    · exact absurd hobj (by simp [isObj])
  · simp [handle_decoded, run_batch]

/-- C7 witness: the amended theorem applied to the version-1.0 request of
the claim, to a failed decode, and to the concrete non-object bodies. -/
theorem C7_amended_validation_witness :
    (∃ env, process_request noDriver initState
        (.obj [("jsonrpc", .str "1.0"), ("id", .num 1), ("method", .str "count")])
        = .ok (some env) initState
      ∧ getErrCode env = some (-32600)
      ∧ getErrMessage env = some "Invalid Request"
      ∧ getField env "id" = some .null)
    ∧ (∃ env, handle_decoded noDriver initState (.error "Expecting value")
        = (.body env, initState)
      ∧ getErrCode env = some (-32700)
      ∧ getErrMessage env = some "Parse error"
      ∧ getField env "id" = some .null)
    ∧ handle_decoded noDriver initState (.ok (.str "hello")) = (.body .null, initState)
    ∧ handle_decoded noDriver initState (.ok (.arr [])) = (.body (.arr []), initState) :=
  ⟨(C7_amended_validation noDriver initState).1
      [("jsonrpc", .str "1.0"), ("id", .num 1), ("method", .str "count")] rfl,
   (C7_amended_validation noDriver initState).2.1 "Expecting value",
   (C7_amended_validation noDriver initState).2.2.1 (.str "hello") rfl rfl,
   (C7_amended_validation noDriver initState).2.2.2⟩

/-- C10: an envelope whose `id` member is a JSON boolean passes
validation (Python `bool` is a subclass of `int`, so the
`isinstance(id, (str, int, float))` check accepts it) and is treated as a
non-notification: whatever the method resolution and call outcome,
dispatch produces a response envelope carrying that boolean as its id. -/
theorem C10_bool_id (drv : Driver) (st : RPCState) (kvs : List (String × JVal)) (b : Bool)
    (hid : pyGet kvs "id" = some (.bool b))
    (hjr : jsonrpcTagOk kvs = true)
    (hm : methodMemberOk kvs = true)
    (hp : paramsMemberOk kvs = true) :
    validate_rpc_request kvs = none
    ∧ ∃ env st2, process_request drv st (.obj kvs) = .ok (some env) st2
        ∧ getField env "id" = some (.bool b) := by
  have hpyid : pyId kvs = .bool b := by simp [pyId, hid]
  have hidok : idMemberOk kvs = true := by simp [idMemberOk, hid]
  have hv : validate_rpc_request kvs = none := by
    simp [validate_rpc_request, hjr, hidok, hm, hp]
  refine ⟨hv, ?_⟩
  have hnull : (pyId kvs).isNull = false := by simp [hpyid, JVal.isNull]
  cases hr : resolveAttr (methodOf kvs) with
  | none =>
    obtain ⟨env, he, hide, _, _, _⟩ :=
      build_rpc_error_nonnull_fields (pyId kvs) (-32601) "Method not found"
        ("RPC object has no attribute " ++ methodOf kvs) false hnull
    exact ⟨env, st, by simp [process_request, hv, hr, he], hpyid ▸ hide⟩
  | some a =>
    rcases hc : (callAttr drv st a (paramsOf kvs)).1 with e | v
    · cases e with
      | typeError m =>
        obtain ⟨env, he, hide, _, _, _⟩ :=
          build_rpc_error_nonnull_fields (pyId kvs) (-32602) "Invalid params" m false hnull
        exact ⟨env, (callAttr drv st a (paramsOf kvs)).2,
          by simp [process_request, hv, hr, hc, he], hpyid ▸ hide⟩
      | valueError m =>
        obtain ⟨env, he, hide, _, _, _⟩ :=
          build_rpc_error_nonnull_fields (pyId kvs) (-32603) "Internal Error" m false hnull
        exact ⟨env, (callAttr drv st a (paramsOf kvs)).2,
          by simp [process_request, hv, hr, hc, he], hpyid ▸ hide⟩
      | otherError m =>
        obtain ⟨env, he, hide, _, _, _⟩ :=
          build_rpc_error_nonnull_fields (pyId kvs) (-32603) "Internal Error" m false hnull
        exact ⟨env, (callAttr drv st a (paramsOf kvs)).2,
          by simp [process_request, hv, hr, hc, he], hpyid ▸ hide⟩
    · obtain ⟨env, he, hide, _, _⟩ := build_rpc_result_fields (pyId kvs) v hnull
      exact ⟨env, (callAttr drv st a (paramsOf kvs)).2,
        by simp [process_request, hv, hr, hc, he], hpyid ▸ hide⟩

/-- C10 witness: a `count` request with boolean id `true` in the idle
initial session: validation accepts it and the response carries id
`true`. -/
theorem C10_bool_id_witness :
    validate_rpc_request
        [("jsonrpc", .str "2.0"), ("id", .bool true), ("method", .str "count")] = none
    ∧ ∃ env st2, process_request noDriver initState
        (.obj [("jsonrpc", .str "2.0"), ("id", .bool true), ("method", .str "count")])
        = .ok (some env) st2
        ∧ getField env "id" = some (.bool true) :=
  C10_bool_id noDriver initState
    [("jsonrpc", .str "2.0"), ("id", .bool true), ("method", .str "count")]
    true rfl rfl rfl rfl
